import Mathlib

/- Shallow embedding of the aggregation core of the nws-winter-weather-analysis
pipeline: the per-station grouping, period classification, monthly/seasonal
averaging and yearly report assembly of calculate_avg_tmax_tmin.py, and the
per-month ranking, year-tier and winter-average logic of
calculate_warmest_year.py.  Observations are modelled as already-parsed records
(the source silently drops rows with unparseable dates or values before any
aggregation, so the embedded input is the list of surviving records); numeric
values are rationals, station keys are strings, and the CSV writing layer is
modelled as the list of rows each writer emits.  The final cosmetic sort that
some writers apply before emitting rows is omitted where noted; every property
proved about those row lists is insensitive to row order. -/

namespace NWS

/-- Calendar dates as plain (year, month, day) triples, compared
lexicographically exactly as Python `datetime.date` compares. -/
structure Date where
  y : Int
  m : Nat
  d : Nat
deriving DecidableEq

/-- Lexicographic `a ≤ b` on dates, as Python date comparison. -/
def dateLE (a b : Date) : Bool :=
  decide (a.y < b.y) ||
    (a.y == b.y && (decide (a.m < b.m) || (a.m == b.m && decide (a.d ≤ b.d))))

/-- Lexicographic `a < b` on dates, as Python date comparison. -/
def dateLT (a b : Date) : Bool :=
  decide (a.y < b.y) ||
    (a.y == b.y && (decide (a.m < b.m) || (a.m == b.m && decide (a.d < b.d))))

/-- RECENT_CUTOFF = date(2025, 10, 1) in calculate_avg_tmax_tmin.py. -/
def RECENT_CUTOFF : Date := ⟨2025, 10, 1⟩

/-- OLD_CUTOFF = date(2000, 10, 1) in calculate_avg_tmax_tmin.py. -/
def OLD_CUTOFF : Date := ⟨2000, 10, 1⟩

/-- The three period labels 'all', '<2000', '2026' of PERIODS. -/
inductive Period where
  | all : Period
  | pre2000 : Period
  | y2026 : Period
deriving DecidableEq

/-- WINTER_MONTHS = [10, 11, 12, 1, 2, 3]. -/
def WINTER_MONTHS : List Nat := [10, 11, 12, 1, 2, 3]

/-- INCLUDED_MONTHS = [11, 12, 1, 2]. -/
def INCLUDED_MONTHS : List Nat := [11, 12, 1, 2]

/-- The list of period keys a record dated `d` is appended to by
`add_record_for_periods` in gather(): on/after RECENT_CUTOFF the record goes
to '2026' only (early return); otherwise to 'all', and additionally to '<2000'
when strictly before OLD_CUTOFF. -/
def add_record_for_periods (d : Date) : List Period :=
  if dateLE RECENT_CUTOFF d then [Period.y2026]
  else Period.all :: (if dateLT d OLD_CUTOFF then [Period.pre2000] else [])

/-- A parsed observation record: raw station id (the key of the per-station
monthly structures), normalized display name (the key of the period
aggregation; the pure string normalization `normalize_display_name` is applied
upstream of this model), observation date, and numeric value. -/
structure Obs where
  sid : String
  disp : String
  date : Date
  val : ℚ
deriving DecidableEq

/-- First-occurrence deduplication, modelling Python set/dict key collections
(all properties proved are membership-level, so the particular order is
irrelevant). -/
def uniqueKeys {α : Type} [DecidableEq α] : List α → List α
  | [] => []
  | a :: l => a :: (uniqueKeys l).filter (fun b => !(b == a))

/-- Mean of a list of rationals, absent when the list is empty; models the
`statistics.mean(vals) if vals else ...` guards in the source. -/
def meanQ (l : List ℚ) : Option ℚ :=
  if l.isEmpty then none else some (l.sum / (l.length : ℚ))

/-- Python's built-in round on a rational: nearest integer, ties to even. -/
def roundHalfEven (q : ℚ) : ℤ :=
  if Int.fract q < 1 / 2 then ⌊q⌋
  else if 1 / 2 < Int.fract q then ⌊q⌋ + 1
  else if Even ⌊q⌋ then ⌊q⌋ else ⌊q⌋ + 1

/-- Python's round(x, 2): round half to even at two decimal places. -/
def roundTo2 (q : ℚ) : ℚ := ((roundHalfEven (q * 100) : ℤ) : ℚ) / 100

/-- The list of values appended to `tmin_monthly[station_id][y][m]` (resp.
tmax_monthly) while processing the observation stream `obs` in gather(). -/
def valuesFor (obs : List Obs) (sid : String) (y : Int) (m : Nat) : List ℚ :=
  (obs.filter fun o => o.sid == sid && o.date.y == y && o.date.m == m).map
    (fun o => o.val)

/-- `round(statistics.mean(vals)) if vals else None` over a monthly group:
the MonthlyAverage entry of gather()'s `monthly_avgs`. -/
def monthlyMeanInt (obs : List Obs) (sid : String) (y : Int) (m : Nat) :
    Option ℤ :=
  (meanQ (valuesFor obs sid y m)).map roundHalfEven

/-- The (year, month) key set `ym_keys` of a station in gather(): every
(year, month) carrying at least one TMIN or TMAX value. -/
def ymKeys (tmin tmax : List Obs) (sid : String) : List (Int × Nat) :=
  uniqueKeys (((tmin ++ tmax).filter fun o => o.sid == sid).map
    fun o => (o.date.y, o.date.m))

/-- `station_years[station_id]`: every calendar year in which the station has
any valid observation (of any month, winter or not). -/
def stationYears (tmin tmax : List Obs) (sid : String) : List Int :=
  uniqueKeys (((tmin ++ tmax).filter fun o => o.sid == sid).map
    fun o => o.date.y)

/-- `earliest_calendar_year = min(years)`, absent when the station has no
observations (in which case gather() skips the station). -/
def earliestYear (tmin tmax : List Obs) (sid : String) : Option Int :=
  (stationYears tmin tmax sid).min?

/-- `season_year = y if m in (11, 12) else (y - 1)` from the monthly CSV loop
of gather(). -/
def seasonYearOf (y : Int) (m : Nat) : Int :=
  if m = 11 ∨ m = 12 then y else y - 1

/-- The rows of a station's per-station monthly CSV, as tuples
(seasonYear, year, month, avgMax, avgMin): keys restricted to
INCLUDED_MONTHS, season years before the station's earliest observed calendar
year excluded, rows with both averages absent skipped at write time.  The
final sort by (seasonYear, season order) is omitted; all properties proved are
order-insensitive. -/
def monthlyRows (tmin tmax : List Obs) (sid : String) :
    List (Int × Int × Nat × Option ℤ × Option ℤ) :=
  match earliestYear tmin tmax sid with
  | none => []
  | some ey =>
    ((ymKeys tmin tmax sid).filter fun p =>
        decide (p.2 ∈ INCLUDED_MONTHS) && decide (ey ≤ seasonYearOf p.1 p.2)
      ).filterMap fun p =>
        let aMax := monthlyMeanInt tmax sid p.1 p.2
        let aMin := monthlyMeanInt tmin sid p.1 p.2
        if aMax = none ∧ aMin = none then none
        else some (seasonYearOf p.1 p.2, p.1, p.2, aMax, aMin)

/-- `ym_map.get((y, m))` in the yearly loop of gather(): the stored
(avg_max, avg_min) pair when the key is present, absent otherwise (a present
pair is always truthy in the source, being a 2-tuple). -/
def ymPair (tmin tmax : List Obs) (sid : String) (y : Int) (m : Nat) :
    Option (Option ℤ × Option ℤ) :=
  if (y, m) ∈ ymKeys tmin tmax sid then
    some (monthlyMeanInt tmax sid y m, monthlyMeanInt tmin sid y m)
  else none

/-- The candidate season years of a station in the yearly loop of gather():
y for a (y, 11) or (y, 12) key, y - 1 for a (y, 1) key. -/
def seasonYearsFor (tmin tmax : List Obs) (sid : String) : List Int :=
  uniqueKeys ((ymKeys tmin tmax sid).filterMap fun p =>
    if p.2 = 11 ∨ p.2 = 12 then some p.1
    else if p.2 = 1 then some (p.1 - 1) else none)

/-- Candidate season years surviving the first-season exclusion
`sy >= earliest_calendar_year` (the source also sorts them; the sort is
omitted, all properties proved being order-insensitive). -/
def seasonYearsFiltered (tmin tmax : List Obs) (sid : String) : List Int :=
  match earliestYear tmin tmax sid with
  | none => []
  | some ey =>
    (seasonYearsFor tmin tmax sid).filter fun sy => decide (ey ≤ sy)

/-- The (parts_max, parts_min) lists collected for one season year in the
yearly loop of gather(): the non-absent stored monthly averages among
Nov(sy), Dec(sy), Jan(sy + 1). -/
def yearlyParts (tmin tmax : List Obs) (sid : String) (sy : Int) :
    List ℤ × List ℤ :=
  let keys : List (Int × Nat) := [(sy, 11), (sy, 12), (sy + 1, 1)]
  (keys.filterMap fun k =>
      match ymPair tmin tmax sid k.1 k.2 with
      | some (a, _) => a
      | none => none,
   keys.filterMap fun k =>
      match ymPair tmin tmax sid k.1 k.2 with
      | some (_, b) => b
      | none => none)

/-- The rows of a station's yearly (Nov–Jan) CSV, as tuples
(seasonYear, avgMax, avgMin): one row per surviving season year with at least
one available monthly part, each average the rounded mean of the available
parts, absent when that side has no parts (an absent side is written as a
blank field; the constant station column is omitted from the tuple). -/
def yearlyRows (tmin tmax : List Obs) (sid : String) :
    List (Int × Option ℤ × Option ℤ) :=
  (seasonYearsFiltered tmin tmax sid).filterMap fun sy =>
    let p := yearlyParts tmin tmax sid sy
    if p.1 = [] ∧ p.2 = [] then none
    else some (sy,
      (meanQ (p.1.map fun z => (z : ℚ))).map roundHalfEven,
      (meanQ (p.2.map fun z => (z : ℚ))).map roundHalfEven)

/-- The values accumulated under the period key (disp, m, period) by
`add_record_for_periods` over the observation stream `store`, in stream
order. -/
def periodValues (store : List Obs) (disp : String) (m : Nat) (p : Period) :
    List ℚ :=
  (store.filter fun o =>
      o.disp == disp && o.date.m == m &&
        decide (p ∈ add_record_for_periods o.date)).map fun o => o.val

/-- The key set of the period aggregation: every (disp, month, period) touched
by some TMIN or TMAX record. -/
def periodKeys (tmin tmax : List Obs) : List (String × Nat × Period) :=
  uniqueKeys ((tmin ++ tmax).flatMap fun o =>
    (add_record_for_periods o.date).map fun p => (o.disp, o.date.m, p))

/-- The period report rows (month, disp, period, avgMin, avgMax) built by
gather() before the final sort (omitted; properties proved are
order-insensitive): keys with a non-winter month are dropped, each side's
average is the rounded mean of its collected values, blank when empty. -/
def periodRows (tmin tmax : List Obs) :
    List (Nat × String × Period × Option ℤ × Option ℤ) :=
  (periodKeys tmin tmax).filterMap fun k =>
    if k.2.1 ∈ WINTER_MONTHS then
      some (k.2.1, k.1, k.2.2,
        (meanQ (periodValues tmin k.1 k.2.1 k.2.2)).map roundHalfEven,
        (meanQ (periodValues tmax k.1 k.2.1 k.2.2)).map roundHalfEven)
    else none

/-- The station ids present in the monthly accumulators, i.e. the iteration
domain of `monthly_avgs.items()` in gather(). -/
def stationsOf (tmin tmax : List Obs) : List String :=
  uniqueKeys ((tmin ++ tmax).map fun o => o.sid)

/-- The per-station yearly CSV files gather() actually writes, as
(station id, rows) pairs.  The source's `return rows` sits inside the loop
over `monthly_avgs.items()`, after the aggregated-baseline block, so the loop
writes the yearly file of the first station whose `station_years` entry is
nonempty and then returns from gather(). -/
def yearlyReportLoop (tmin tmax : List Obs) :
    List String → List (String × List (Int × Option ℤ × Option ℤ))
  | [] => []
  | s :: rest =>
    if stationYears tmin tmax s = [] then yearlyReportLoop tmin tmax rest
    else [(s, yearlyRows tmin tmax s)]

/-- All yearly CSV files written by a run of gather(). -/
def yearlyReport (tmin tmax : List Obs) :
    List (String × List (Int × Option ℤ × Option ℤ)) :=
  yearlyReportLoop tmin tmax (stationsOf tmin tmax)

/-- The value gather() returns: `rows` when the loop over
`monthly_avgs.items()` reaches a station with a nonempty `station_years` entry
(where the misindented `return rows` executes), and Python's implicit None
when the loop body never reaches the return — in particular on an input with
no valid observation. -/
def gatherLoop (tmin tmax : List Obs)
    (rows : List (Nat × String × Period × Option ℤ × Option ℤ)) :
    List String → Option (List (Nat × String × Period × Option ℤ × Option ℤ))
  | [] => none
  | s :: rest =>
    if stationYears tmin tmax s = [] then gatherLoop tmin tmax rows rest
    else some rows

/-- The return value of gather() on the given observation streams. -/
def gatherResult (tmin tmax : List Obs) :
    Option (List (Nat × String × Period × Option ℤ × Option ℤ)) :=
  gatherLoop tmin tmax (periodRows tmin tmax) (stationsOf tmin tmax)

/-- main() = write_output(gather()): when gather() returns a row list,
write_output iterates it and succeeds; when gather() returns None,
`for ... in rows` raises TypeError, modelled as an error result. -/
def mainResult (tmin tmax : List Obs) :
    Except String (List (Nat × String × Period × Option ℤ × Option ℤ)) :=
  match gatherResult tmin tmax with
  | some rows => Except.ok rows
  | none => Except.error "TypeError: NoneType object is not iterable"

/-- A row of a per-station split file as read by `process_station_file` in
calculate_warmest_year.py (station name column abstracted away): observation
date and numeric value, malformed rows already dropped. -/
structure RRow where
  date : Date
  val : ℚ
deriving DecidableEq

/-- The (year, month) group keys of a station file. -/
def groupKeys (rows : List RRow) : List (Int × Nat) :=
  uniqueKeys (rows.map fun r => (r.date.y, r.date.m))

/-- The values grouped under a (year, month) key, in file order. -/
def groupVals (rows : List RRow) (k : Int × Nat) : List ℚ :=
  (rows.filter fun r => r.date.y == k.1 && r.date.m == k.2).map fun r => r.val

/-- The `avgs` dictionary returned by `process_station_file`: each nonempty
(year, month) group mapped to the plain arithmetic mean `sum(vals)/len(vals)`
of its values — no integer rounding. -/
def process_station_avgs (rows : List RRow) : List ((Int × Nat) × ℚ) :=
  (groupKeys rows).filterMap fun k =>
    let vs := groupVals rows k
    if vs.isEmpty then none else some (k, vs.sum / (vs.length : ℚ))

/-- Dictionary lookup in an avgs association list. -/
def lookupYM (avgs : List ((Int × Nat) × ℚ)) (k : Int × Nat) : Option ℚ :=
  (avgs.find? fun p => p.1 == k).map fun p => p.2

/-- TARGET_MONTHS = [10, 11, 12, 1, 2, 3] in calculate_warmest_year.py. -/
def TARGET_MONTHS : List Nat := [10, 11, 12, 1, 2, 3]

/-- The (year, mean) pairs of one calendar month drawn from an avgs map, as
collected by write_ranked_output and write_year_tiers. -/
def monthItems (avgs : List ((Int × Nat) × ℚ)) (month : Nat) :
    List (Int × ℚ) :=
  (avgs.filter fun p => p.1.2 == month).map fun p => (p.1.1, p.2)

/-- Descending order on (year, mean) pairs by mean, the sort key of
`items.sort(key=lambda t: t[2], reverse=True)` (tie order among equal means is
unspecified by the specification and irrelevant to every property proved). -/
def descByMean (a b : Int × ℚ) : Prop := b.2 ≤ a.2

instance : DecidableRel descByMean := fun a b =>
  inferInstanceAs (Decidable (b.2 ≤ a.2))

instance : IsTotal (Int × ℚ) descByMean := ⟨fun a b => le_total b.2 a.2⟩

instance : IsTrans (Int × ℚ) descByMean :=
  ⟨fun _ _ _ h1 h2 => le_trans h2 h1⟩

/-- A month's items sorted descending by mean. -/
def sortDesc (items : List (Int × ℚ)) : List (Int × ℚ) :=
  items.insertionSort descByMean

/-- The `top = items[:20]` slice of write_ranked_output for one month. -/
def rankedTop (avgs : List ((Int × Nat) × ℚ)) (month : Nat) :
    List (Int × ℚ) :=
  (sortDesc (monthItems avgs month)).take 20

/-- The rows write_ranked_output emits for one station, as
(year, month, mean rounded to 2 decimals) tuples — the f-string "%.2f"
formatting modelled as rounding to two decimal places. -/
def rankedRows (avgs : List ((Int × Nat) × ℚ)) : List (Int × Nat × ℚ) :=
  TARGET_MONTHS.flatMap fun month =>
    (rankedTop avgs month).map fun it => (it.1, month, roundTo2 it.2)

/-- `for idx, (y, mm, avg) in enumerate(items, start=1): if y == target_year:
ranking = idx; degrees source = avg; break` — the first 1-based position of
the target year in a sorted item list, with its mean. -/
def findRank : List (Int × ℚ) → Int → Nat → Option (Nat × ℚ)
  | [], _, _ => none
  | it :: rest, ty, idx =>
    if it.1 = ty then some (idx, it.2) else findRank rest ty (idx + 1)

/-- check_months = [10, 11, 12, 1] in write_year_tiers. -/
def CHECK_MONTHS : List Nat := [10, 11, 12, 1]

/-- target_year_for_month = {10: 2025, 11: 2025, 12: 2025, 1: 2026}. -/
def target_year_for_month (m : Nat) : Int := if m = 1 then 2026 else 2025

/-- One row of the year-tier report, as (targetYear, month, rank, degrees):
blanks (modelled as `none`) when the month has no items at all, or when the
target year does not occur among them; otherwise the 1-based rank of the
target year in the descending order and `round(top_value - avg, 2)`. -/
def year_tier_row (avgs : List ((Int × Nat) × ℚ)) (m : Nat) :
    Int × Nat × Option Nat × Option ℚ :=
  match sortDesc (monthItems avgs m) with
  | [] => (target_year_for_month m, m, none, none)
  | top :: rest =>
    match findRank (top :: rest) (target_year_for_month m) 1 with
    | none => (target_year_for_month m, m, none, none)
    | some (idx, avg) =>
      (target_year_for_month m, m, some idx, some (roundTo2 (top.2 - avg)))

/-- The full year-tier report for one station: one row per check month. -/
def year_tier_rows (avgs : List ((Int × Nat) × ℚ)) :
    List (Int × Nat × Option Nat × Option ℚ) :=
  CHECK_MONTHS.map (year_tier_row avgs)

/-- candidate_years in compute_winter_avgs: y for a (y, 11) or (y, 12) key,
y - 1 for a (y, 1) key (the source sorts them; the sort is omitted, all
properties proved being order-insensitive). -/
def candidate_years (avgs : List ((Int × Nat) × ℚ)) : List Int :=
  uniqueKeys (avgs.filterMap fun p =>
    if p.1.2 = 11 ∨ p.1.2 = 12 then some p.1.1
    else if p.1.2 = 1 then some (p.1.1 - 1) else none)

/-- compute_winter_avgs: a candidate season year receives a winter average
exactly when all three of Nov(sy), Dec(sy), Jan(sy + 1) are present in the
avgs map, and the average is the mean of those three monthly means. -/
def compute_winter_avgs (avgs : List ((Int × Nat) × ℚ)) : List (Int × ℚ) :=
  (candidate_years avgs).filterMap fun w =>
    match lookupYM avgs (w, 11), lookupYM avgs (w, 12),
        lookupYM avgs (w + 1, 1) with
    | some a, some b, some c => some (w, (a + b + c) / 3)
    | _, _, _ => none

/-! Helper lemmas for evaluating and reasoning about the embedded pipeline. -/

lemma mem_uniqueKeys {α : Type} [DecidableEq α] {a : α} {l : List α} :
    a ∈ uniqueKeys l ↔ a ∈ l := by
  induction l with
  | nil => exact Iff.rfl
  | cons b l ih =>
    simp only [uniqueKeys, List.mem_cons, List.mem_filter,
      Bool.not_eq_true', beq_eq_false_iff_ne, ne_eq, ih]
    by_cases hab : a = b
    · simp [hab]
    · simp [hab]

lemma filter_filter_of_imp {α : Type} (p q : α → Bool) (l : List α)
    (h : ∀ x, p x = true → q x = true) :
    (l.filter q).filter p = l.filter p := by
  induction l with
  | nil => rfl
  | cons x l ih =>
    by_cases hp : p x = true
    · have hq := h x hp
      simp [List.filter_cons, hp, hq, ih]
    · by_cases hq : q x = true
      · simp [List.filter_cons, hp, hq, ih]
      · simp [List.filter_cons, hp, hq, ih]

lemma meanQ_nil : meanQ [] = none := rfl

lemma meanQ_singleton (a : ℚ) : meanQ [a] = some a := by
  simp [meanQ]

lemma roundHalfEven_intCast (z : ℤ) : roundHalfEven ((z : ℤ) : ℚ) = z := by
  unfold roundHalfEven
  rw [Int.fract_intCast, Int.floor_intCast]
  norm_num

lemma roundHalfEven_eq {q : ℚ} {z : ℤ} (h : q = (z : ℚ)) :
    roundHalfEven q = z := h ▸ roundHalfEven_intCast z

lemma monthlyMeanInt_nil (sid : String) (y : Int) (m : Nat) :
    monthlyMeanInt [] sid y m = none := rfl

lemma monthlyMeanInt_eq_intCast {obs : List Obs} {sid : String} {y : Int}
    {m : Nat} {a : ℚ} {z : ℤ} (hv : valuesFor obs sid y m = [a])
    (hz : a = (z : ℚ)) : monthlyMeanInt obs sid y m = some z := by
  rw [monthlyMeanInt, hv, meanQ_singleton]
  simp [roundHalfEven_eq hz]

/-! Concrete observations used by counterexamples and witnesses. -/

/-- Station A, Nov 3 2020, value 5 (TMIN stream). -/
def oA : Obs := ⟨"A", "A", ⟨2020, 11, 3⟩, 5⟩

/-- Station B, Nov 4 2020, value 7 (TMIN stream). -/
def oB : Obs := ⟨"B", "B", ⟨2020, 11, 4⟩, 7⟩

/-- Station S, Jul 1 2015, value 10: a non-winter observation. -/
def oJul : Obs := ⟨"S", "S", ⟨2015, 7, 1⟩, 10⟩

/-- Station S, Jan 5 2016, value 20. -/
def oJan : Obs := ⟨"S", "S", ⟨2016, 1, 5⟩, 20⟩

/-- Removal of every observation whose month is outside WINTER_MONTHS. -/
def winterOnly (obs : List Obs) : List Obs :=
  obs.filter fun o => decide (o.date.m ∈ WINTER_MONTHS)

/-- C1.  The claim says every station with at least one valid observation
gets its yearly (Nov–Jan) report rows.  The code contradicts it: `return
rows` is indented inside the loop over `monthly_avgs.items()`, so gather()
writes the yearly file of the first station only and then returns.  Here
station B has a valid observation and a nonempty yearly row set, yet the
yearly report written by the run contains a file for station A only. -/
theorem C1_yearly_report_only_first_station :
    stationsOf [oA, oB] [] = ["A", "B"]
    ∧ yearlyRows [oA, oB] [] "B" = [(2020, none, some 7)]
    ∧ yearlyReport [oA, oB] [] = [("A", [(2020, none, some 5)])] := by
  have hBval : valuesFor [oA, oB] "B" 2020 11 = [7] := by decide
  have hAval : valuesFor [oA, oB] "A" 2020 11 = [5] := by decide
  have hB : monthlyMeanInt [oA, oB] "B" 2020 11 = some 7 :=
    monthlyMeanInt_eq_intCast hBval (by norm_num)
  have hA : monthlyMeanInt [oA, oB] "A" 2020 11 = some 5 :=
    monthlyMeanInt_eq_intCast hAval (by norm_num)
  have hrows : ∀ s : String, ∀ z : ℤ,
      monthlyMeanInt [oA, oB] s 2020 11 = some z →
      seasonYearsFiltered [oA, oB] [] s = [2020] →
      ymKeys [oA, oB] [] s = [(2020, 11)] →
      yearlyRows [oA, oB] [] s = [(2020, none, some z)] := by
    intro s z hz hsy hkeys
    rw [yearlyRows, hsy]
    simp only [List.filterMap_cons, List.filterMap_nil, yearlyParts, ymPair,
      hkeys]
    norm_num [monthlyMeanInt_nil, hz, List.filterMap_cons, meanQ_nil,
      meanQ_singleton, roundHalfEven_intCast]
  refine ⟨by decide, hrows "B" 7 hB (by decide) (by decide), ?_⟩
  have hst : stationsOf [oA, oB] [] = ["A", "B"] := by decide
  have hys : stationYears [oA, oB] [] "A" = [2020] := by decide
  rw [yearlyReport, hst, yearlyReportLoop, hys]
  simp [hrows "A" 5 hA (by decide) (by decide)]

/-- C9.  The claim says the run completes without a runtime error on every
input, including an empty observation set.  With no valid observation,
gather()'s per-station loop never reaches the misindented `return rows`, so
gather() returns None and write_output raises TypeError iterating it. -/
theorem C9_empty_input_raises :
    gatherResult [] [] = none
    ∧ mainResult [] [] =
        Except.error "TypeError: NoneType object is not iterable" :=
  ⟨rfl, rfl⟩

/-- Monthly averages with Nov 2020 and Dec 2020 present but Jan 2021 absent:
two of the three winter months are available. -/
def exC2 : List ((Int × Nat) × ℚ) := [((2020, 11), 5), ((2020, 12), 7)]

/-- C2, counterexample.  The claim says a season year with only a proper
subset of the three months still receives a seasonal average in the
winter-block ranking mode.  compute_winter_avgs requires all three months:
with Nov and Dec 2020 present and Jan 2021 absent, season year 2020 receives
no winter average at all. -/
theorem C2_counterexample :
    lookupYM exC2 (2020, 11) = some 5 ∧ lookupYM exC2 (2020, 12) = some 7
    ∧ lookupYM exC2 (2021, 1) = none
    ∧ candidate_years exC2 = [2020]
    ∧ compute_winter_avgs exC2 = [] := by
  refine ⟨by decide, by decide, by decide, by decide, ?_⟩
  rw [compute_winter_avgs, show candidate_years exC2 = [2020] from by decide]
  simp only [List.filterMap_cons, List.filterMap_nil]
  rw [show lookupYM exC2 (2020, 11) = some 5 from by decide,
    show lookupYM exC2 (2020, 12) = some 7 from by decide,
    show lookupYM exC2 (2020 + 1, 1) = none from by decide]

/-- October 1 2020, value 1, for a Ranker station file. -/
def rOct1 : RRow := ⟨⟨2020, 10, 1⟩, 1⟩

/-- October 2 2020, value 2, for a Ranker station file. -/
def rOct2 : RRow := ⟨⟨2020, 10, 2⟩, 2⟩

/-- C3, counterexample.  The claim says the Ranker's orderings are computed
over the integer-rounded MonthlyAverage map.  process_station_file computes
its own unrounded means: for October 2020 values 1 and 2, its map holds 3/2,
while the integer-rounded monthly average of the same group is 2; the two
disagree, so the Ranker does not operate on integer-rounded means. -/
theorem C3_counterexample :
    process_station_avgs [rOct1, rOct2] = [((2020, 10), 3 / 2)]
    ∧ roundHalfEven ((3 : ℚ) / 2) = 2
    ∧ ((3 : ℚ) / 2) ≠ ((2 : ℤ) : ℚ) := by
  refine ⟨?_, ?_, by norm_num⟩
  · rw [process_station_avgs, show groupKeys [rOct1, rOct2] = [(2020, 10)]
      from by decide]
    simp only [List.filterMap_cons, List.filterMap_nil]
    rw [show groupVals [rOct1, rOct2] (2020, 10) = [1, 2] from by decide]
    norm_num
  · unfold roundHalfEven
    rw [Int.fract]
    norm_num [Int.even_iff]

/-- C4, counterexample.  The claim says removing every non-winter-month
observation leaves every emitted report row unchanged.  It does not: a
non-winter observation participates in `station_years`, so removing it can
raise the station's earliest observed calendar year and strike previously
emitted rows.  Station S has a July 2015 observation and a Jan 2016
observation; with the July record present the monthly report carries the
season-2015 January row, and with non-winter observations removed the row
disappears. -/
theorem C4_counterexample :
    oJul.date.m ∉ WINTER_MONTHS
    ∧ winterOnly [oJul, oJan] = [oJan]
    ∧ monthlyRows [oJul, oJan] [] "S" = [(2015, 2016, 1, none, some 20)]
    ∧ monthlyRows (winterOnly [oJul, oJan]) (winterOnly []) "S" = [] := by
  have hval : valuesFor [oJul, oJan] "S" 2016 1 = [20] := by decide
  have hmin : monthlyMeanInt [oJul, oJan] "S" 2016 1 = some 20 :=
    monthlyMeanInt_eq_intCast hval (by norm_num)
  refine ⟨by decide, by decide, ?_, by decide⟩
  rw [monthlyRows, show earliestYear [oJul, oJan] [] "S" = some 2015 from
    by decide]
  dsimp only
  rw [show ((ymKeys [oJul, oJan] [] "S").filter fun p =>
      decide (p.2 ∈ INCLUDED_MONTHS) &&
        decide ((2015 : ℤ) ≤ seasonYearOf p.1 p.2)) = [(2016, 1)] from
    by decide]
  simp only [List.filterMap_cons, List.filterMap_nil]
  rw [show monthlyMeanInt [] "S" 2016 1 = none from rfl, hmin]
  norm_num [seasonYearOf]
  simp

/-- C5.  Period classification: a date on/after RECENT_CUTOFF belongs to
period 2026 only (not all, not pre-2000); an earlier date belongs to all, and
additionally to pre-2000 exactly when strictly before OLD_CUTOFF; the
boundary dates 2025-10-01 and 2000-10-01 land in 2026 alone and in all (not
pre-2000) respectively. -/
theorem C5_period_classification :
    (∀ d : Date,
      (Period.y2026 ∈ add_record_for_periods d ↔ dateLE RECENT_CUTOFF d = true)
      ∧ (Period.all ∈ add_record_for_periods d ↔
          dateLE RECENT_CUTOFF d = false)
      ∧ (Period.pre2000 ∈ add_record_for_periods d ↔
          (dateLE RECENT_CUTOFF d = false ∧ dateLT d OLD_CUTOFF = true)))
    ∧ add_record_for_periods ⟨2025, 10, 1⟩ = [Period.y2026]
    ∧ add_record_for_periods ⟨2000, 10, 1⟩ = [Period.all] := by
  refine ⟨fun d => ?_, by decide, by decide⟩
  by_cases hr : dateLE RECENT_CUTOFF d = true
  · simp [add_record_for_periods, hr]
  · rw [Bool.not_eq_true] at hr
    by_cases ho : dateLT d OLD_CUTOFF = true
    · simp [add_record_for_periods, hr, ho]
    · rw [Bool.not_eq_true] at ho
      simp [add_record_for_periods, hr, ho]

/-- Station S, Jan 15 2019, value 20: the station's only record, so its
earliest observed calendar year is 2019 while the record's season year is
2018. -/
def oJan2019 : Obs := ⟨"S", "S", ⟨2019, 1, 15⟩, 20⟩

lemma monthlyRows_mem {tmin tmax : List Obs} {sid : String} {ey : Int}
    {r : Int × Int × Nat × Option ℤ × Option ℤ}
    (hey : earliestYear tmin tmax sid = some ey)
    (hr : r ∈ monthlyRows tmin tmax sid) :
    ey ≤ r.1 ∧ r.2.2.1 ∈ INCLUDED_MONTHS
      ∧ r.1 = seasonYearOf r.2.1 r.2.2.1 := by
  rw [monthlyRows, hey] at hr
  dsimp only at hr
  rw [List.mem_filterMap] at hr
  obtain ⟨p, hp, hf⟩ := hr
  rw [List.mem_filter, Bool.and_eq_true] at hp
  have h1 : ey ≤ seasonYearOf p.1 p.2 := of_decide_eq_true hp.2.2
  have h2 : p.2 ∈ INCLUDED_MONTHS := of_decide_eq_true hp.2.1
  split at hf
  · exact absurd hf (by simp)
  · cases hf
    exact ⟨h1, h2, rfl⟩

/-- C6.  First-season exclusion: every row of a station's monthly report and
of its yearly report carries a season year at least the station's earliest
observed calendar year; and for the station whose only record is Jan 2019,
season year 2018 appears in neither report — both reports are empty. -/
theorem C6_first_season_exclusion :
    (∀ (tmin tmax : List Obs) (sid : String) (ey : Int),
      earliestYear tmin tmax sid = some ey →
      (∀ r ∈ monthlyRows tmin tmax sid, ey ≤ r.1)
      ∧ (∀ r ∈ yearlyRows tmin tmax sid, ey ≤ r.1))
    ∧ earliestYear [oJan2019] [] "S" = some 2019
    ∧ monthlyRows [oJan2019] [] "S" = []
    ∧ yearlyRows [oJan2019] [] "S" = [] := by
  refine ⟨fun tmin tmax sid ey hey => ⟨?_, ?_⟩, by decide, by decide, by decide⟩
  · exact fun r hr => (monthlyRows_mem hey hr).1
  · intro r hr
    rw [yearlyRows] at hr
    rw [List.mem_filterMap] at hr
    obtain ⟨sy, hsy, hf⟩ := hr
    rw [seasonYearsFiltered, hey] at hsy
    dsimp only at hsy
    rw [List.mem_filter] at hsy
    have hle : ey ≤ sy := of_decide_eq_true hsy.2
    dsimp only at hf
    split at hf
    · exact absurd hf (by simp)
    · cases hf
      exact hle

/-- Witness for C6 at a concrete input: station A of the two-station run has
earliest observed year 2020, and every row of its monthly report carries a
season year at least 2020. -/
theorem C6_witness :
    earliestYear [oA, oB] [] "A" = some 2020
    ∧ (∀ r ∈ monthlyRows [oA, oB] [] "A", (2020 : ℤ) ≤ r.1) :=
  ⟨by decide,
    (C6_first_season_exclusion.1 [oA, oB] [] "A" 2020 (by decide)).1⟩

lemma roundHalfEven_nearest (q : ℚ) :
    |q - (roundHalfEven q : ℚ)| ≤ 1 / 2
    ∧ (|q - (roundHalfEven q : ℚ)| = 1 / 2 → Even (roundHalfEven q)) := by
  have hge : (0 : ℚ) ≤ Int.fract q := Int.fract_nonneg q
  have hlt : Int.fract q < 1 := Int.fract_lt_one q
  have hfr : Int.fract q = q - (⌊q⌋ : ℚ) := rfl
  unfold roundHalfEven
  split_ifs with h1 h2 h3
  · rw [hfr] at h1 hge
    have habs : |q - (⌊q⌋ : ℚ)| = q - (⌊q⌋ : ℚ) := abs_of_nonneg hge
    exact ⟨by rw [habs]; linarith, fun h => absurd (habs ▸ h) (by linarith)⟩
  · rw [hfr] at h2 hlt
    have hcast : ((⌊q⌋ + 1 : ℤ) : ℚ) = (⌊q⌋ : ℚ) + 1 := by push_cast; ring
    rw [hcast]
    have hnp : q - ((⌊q⌋ : ℚ) + 1) ≤ 0 := by linarith
    have habs : |q - ((⌊q⌋ : ℚ) + 1)| = (⌊q⌋ : ℚ) + 1 - q := by
      rw [abs_of_nonpos hnp]; ring
    exact ⟨by rw [habs]; linarith, fun h => absurd (habs ▸ h) (by
      intro hx; linarith)⟩
  · rw [hfr] at h1 h2 hge
    have heq : q - (⌊q⌋ : ℚ) = 1 / 2 := le_antisymm (not_lt.mp h2)
      (not_lt.mp h1)
    have habs : |q - (⌊q⌋ : ℚ)| = 1 / 2 := by rw [heq]; norm_num
    exact ⟨le_of_eq habs, fun _ => h3⟩
  · rw [hfr] at h1 h2
    have heq : q - (⌊q⌋ : ℚ) = 1 / 2 := le_antisymm (not_lt.mp h2)
      (not_lt.mp h1)
    have hcast : ((⌊q⌋ + 1 : ℤ) : ℚ) = (⌊q⌋ : ℚ) + 1 := by push_cast; ring
    rw [hcast]
    have habs : |q - ((⌊q⌋ : ℚ) + 1)| = 1 / 2 := by
      rw [abs_of_nonpos (by linarith)]
      linarith
    exact ⟨le_of_eq habs, fun _ => Int.even_add_one.mpr h3⟩

lemma mem_compute_winter_avgs {avgs : List ((Int × Nat) × ℚ)} {w : Int}
    {v : ℚ} (h : (w, v) ∈ compute_winter_avgs avgs) :
    ∃ a b c, lookupYM avgs (w, 11) = some a ∧ lookupYM avgs (w, 12) = some b
      ∧ lookupYM avgs (w + 1, 1) = some c ∧ v = (a + b + c) / 3 := by
  rw [compute_winter_avgs, List.mem_filterMap] at h
  obtain ⟨w', _, hf⟩ := h
  rcases h11 : lookupYM avgs (w', 11) with _ | a <;>
    rcases h12 : lookupYM avgs (w', 12) with _ | b <;>
      rcases h13 : lookupYM avgs (w' + 1, 1) with _ | c <;>
        rw [h11, h12, h13] at hf <;> dsimp only at hf
  any_goals exact Option.noConfusion hf
  rw [Option.some.injEq, Prod.mk.injEq] at hf
  obtain ⟨hw, hv⟩ := hf
  subst hw
  exact ⟨a, b, c, h11, h12, h13, hv.symm⟩

/-- C2, amended.  Seasonal averaging over the available months holds in the
yearly Nov–Jan report: every surviving season year with at least one
available monthly part gets a row whose sides are the rounded means of the
available parts.  In the winter-block ranking mode, however, a season year
receives a winter average exactly when all three of Nov, Dec and Jan(sy+1)
are present, the average then being their mean; with any of the three
missing the year receives no value at all. -/
theorem C2_seasonal_average_policy :
    (∀ (tmin tmax : List Obs) (sid : String),
      ∀ sy ∈ seasonYearsFiltered tmin tmax sid,
        yearlyParts tmin tmax sid sy ≠ ([], []) →
        (sy,
          (meanQ ((yearlyParts tmin tmax sid sy).1.map fun z => (z : ℚ))).map
            roundHalfEven,
          (meanQ ((yearlyParts tmin tmax sid sy).2.map fun z => (z : ℚ))).map
            roundHalfEven) ∈ yearlyRows tmin tmax sid)
    ∧ (∀ (avgs : List ((Int × Nat) × ℚ)) (w : Int) (v : ℚ),
        (w, v) ∈ compute_winter_avgs avgs →
        ∃ a b c, lookupYM avgs (w, 11) = some a
          ∧ lookupYM avgs (w, 12) = some b
          ∧ lookupYM avgs (w + 1, 1) = some c ∧ v = (a + b + c) / 3)
    ∧ (∀ (avgs : List ((Int × Nat) × ℚ)) (w : Int),
        (lookupYM avgs (w, 11) = none ∨ lookupYM avgs (w, 12) = none
          ∨ lookupYM avgs (w + 1, 1) = none) →
        ∀ v, (w, v) ∉ compute_winter_avgs avgs) := by
  refine ⟨?_, fun avgs w v h => mem_compute_winter_avgs h, ?_⟩
  · intro tmin tmax sid sy hsy hne
    rw [yearlyRows, List.mem_filterMap]
    refine ⟨sy, hsy, ?_⟩
    dsimp only
    rw [if_neg]
    intro hc
    exact hne (Prod.ext_iff.mpr hc)
  · intro avgs w hnone v hmem
    obtain ⟨a, b, c, h11, h12, h13, _⟩ := mem_compute_winter_avgs hmem
    rcases hnone with h | h | h
    · rw [h] at h11
      exact Option.noConfusion h11
    · rw [h] at h12
      exact Option.noConfusion h12
    · rw [h] at h13
      exact Option.noConfusion h13

/-- Station S, Nov 10 2020, value 5 (TMIN stream). -/
def oNov : Obs := ⟨"S", "S", ⟨2020, 11, 10⟩, 5⟩

/-- Station S, Dec 10 2020, value 7 (TMIN stream). -/
def oDec : Obs := ⟨"S", "S", ⟨2020, 12, 10⟩, 7⟩

/-- Monthly averages with all of Nov 2020, Dec 2020 and Jan 2021 present. -/
def exC2full : List ((Int × Nat) × ℚ) :=
  [((2020, 11), 5), ((2020, 12), 7), ((2021, 1), 9)]

/-- Witness for C2 at concrete inputs: a station with only Nov and Dec 2020
data still receives its season-2020 yearly row (partial months averaged),
and with all three months present the winter average (2020, 7) decomposes
into the three monthly means. -/
theorem C2_witness :
    ((2020,
      (meanQ ((yearlyParts [oNov, oDec] [] "S" 2020).1.map
        fun z => (z : ℚ))).map roundHalfEven,
      (meanQ ((yearlyParts [oNov, oDec] [] "S" 2020).2.map
        fun z => (z : ℚ))).map roundHalfEven) ∈ yearlyRows [oNov, oDec] [] "S")
    ∧ ∃ a b c, lookupYM exC2full (2020, 11) = some a
        ∧ lookupYM exC2full (2020, 12) = some b
        ∧ lookupYM exC2full (2020 + 1, 1) = some c
        ∧ (7 : ℚ) = (a + b + c) / 3 := by
  have hparts : yearlyParts [oNov, oDec] [] "S" 2020 = ([], [5, 7]) := by
    rw [yearlyParts]
    have hv5 : valuesFor [oNov, oDec] "S" 2020 11 = [5] := by decide
    have hv7 : valuesFor [oNov, oDec] "S" 2020 12 = [7] := by decide
    have h11 : monthlyMeanInt [oNov, oDec] "S" 2020 11 = some 5 :=
      monthlyMeanInt_eq_intCast hv5 (by norm_num)
    have h12 : monthlyMeanInt [oNov, oDec] "S" 2020 12 = some 7 :=
      monthlyMeanInt_eq_intCast hv7 (by norm_num)
    simp only [ymPair, List.filterMap_cons, List.filterMap_nil]
    rw [if_pos (by decide), if_pos (by decide), if_neg (by decide)]
    rw [h11, h12, monthlyMeanInt_nil, monthlyMeanInt_nil]
  refine ⟨C2_seasonal_average_policy.1 [oNov, oDec] [] "S" 2020 (by decide)
    (by rw [hparts]; simp), C2_seasonal_average_policy.2.1 exC2full 2020 7 ?_⟩
  rw [compute_winter_avgs, show candidate_years exC2full = [2020]
    from by decide]
  simp only [List.filterMap_cons, List.filterMap_nil]
  rw [show lookupYM exC2full (2020, 11) = some 5 from by decide,
    show lookupYM exC2full (2020, 12) = some 7 from by decide,
    show lookupYM exC2full (2020 + 1, 1) = some 9 from by decide]
  norm_num

/-- C3, amended.  MonthlyAverage in the aggregation script is the arithmetic
mean rounded to the nearest integer with ties to even, absent exactly when
the group is empty.  The Ranker, however, builds its own per-(year, month)
map whose entries are the plain unrounded means of the groups, and its
orderings operate on those unrounded values. -/
theorem C3_monthly_average_rounding :
    (∀ q : ℚ, |q - (roundHalfEven q : ℚ)| ≤ 1 / 2
      ∧ (|q - (roundHalfEven q : ℚ)| = 1 / 2 → Even (roundHalfEven q)))
    ∧ (∀ (obs : List Obs) (sid : String) (y : Int) (m : Nat),
        monthlyMeanInt obs sid y m =
          (meanQ (valuesFor obs sid y m)).map roundHalfEven
        ∧ (monthlyMeanInt obs sid y m = none ↔ valuesFor obs sid y m = []))
    ∧ (∀ (rows : List RRow) (k : Int × Nat) (v : ℚ),
        (k, v) ∈ process_station_avgs rows →
        groupVals rows k ≠ []
        ∧ v = (groupVals rows k).sum / ((groupVals rows k).length : ℚ)) := by
  refine ⟨roundHalfEven_nearest, ?_, ?_⟩
  · intro obs sid y m
    refine ⟨rfl, ?_⟩
    rw [monthlyMeanInt, meanQ]
    by_cases he : (valuesFor obs sid y m).isEmpty = true
    · rw [if_pos he]
      simp [List.isEmpty_iff.mp he]
    · rw [if_neg he]
      constructor
      · intro h
        exact absurd h (by simp)
      · intro h
        exact absurd (List.isEmpty_iff.mpr h) he
  · intro rows k v h
    rw [process_station_avgs, List.mem_filterMap] at h
    obtain ⟨k', _, hf⟩ := h
    dsimp only at hf
    split at hf
    · exact absurd hf (by simp)
    · rename_i hne
      rw [Option.some.injEq, Prod.mk.injEq] at hf
      obtain ⟨hk, hv⟩ := hf
      subst hk
      exact ⟨fun hnil => hne (by rw [hnil]; rfl), hv.symm⟩

/-- Witness for C3 at a concrete input: the Ranker's October 2020 map entry
for a file with values 1 and 2 is the unrounded mean 3/2 of the nonempty
group. -/
theorem C3_witness :
    groupVals [rOct1, rOct2] (2020, 10) ≠ []
    ∧ (3 : ℚ) / 2 = (groupVals [rOct1, rOct2] (2020, 10)).sum /
        ((groupVals [rOct1, rOct2] (2020, 10)).length : ℚ) :=
  C3_monthly_average_rounding.2.2 [rOct1, rOct2] (2020, 10) (3 / 2) (by
    rw [process_station_avgs, show groupKeys [rOct1, rOct2] = [(2020, 10)]
      from by decide]
    simp only [List.filterMap_cons, List.filterMap_nil]
    rw [show groupVals [rOct1, rOct2] (2020, 10) = [1, 2] from by decide]
    norm_num)

lemma valuesFor_filter (obs : List Obs) (w : Obs → Bool) (sid : String)
    (y : Int) (m : Nat) (h : ∀ o : Obs, o.date.m = m → w o = true) :
    valuesFor (obs.filter w) sid y m = valuesFor obs sid y m := by
  unfold valuesFor
  rw [filter_filter_of_imp]
  intro o ho
  rw [Bool.and_eq_true] at ho
  exact h o (by simpa using ho.2)

lemma periodValues_filter (store : List Obs) (w : Obs → Bool) (disp : String)
    (m : Nat) (p : Period) (h : ∀ o : Obs, o.date.m = m → w o = true) :
    periodValues (store.filter w) disp m p = periodValues store disp m p := by
  unfold periodValues
  rw [filter_filter_of_imp]
  intro o ho
  rw [Bool.and_eq_true, Bool.and_eq_true] at ho
  exact h o (by simpa using ho.1.2)

/-- C4, amended.  A non-winter-month observation's value never enters any
aggregated output value: the monthly group values of every winter month, and
the period-store values of every winter-month key, are unchanged when all
non-winter observations are removed, and every monthly-report row carries a
month in INCLUDED_MONTHS (a subset of the winter set).  Full row-for-row
invariance of the reports fails, however, because a non-winter observation
still feeds the station's earliest observed calendar year (see the
counterexample). -/
theorem C4_winter_value_independence :
    (∀ (obs : List Obs) (sid : String) (y : Int) (m : Nat),
      m ∈ WINTER_MONTHS →
      valuesFor (winterOnly obs) sid y m = valuesFor obs sid y m)
    ∧ (∀ (store : List Obs) (disp : String) (m : Nat) (p : Period),
      m ∈ WINTER_MONTHS →
      periodValues (winterOnly store) disp m p = periodValues store disp m p)
    ∧ (∀ (tmin tmax : List Obs) (sid : String)
        (r : Int × Int × Nat × Option ℤ × Option ℤ),
        r ∈ monthlyRows tmin tmax sid →
        r.2.2.1 ∈ INCLUDED_MONTHS ∧ r.2.2.1 ∈ WINTER_MONTHS) := by
  refine ⟨?_, ?_, ?_⟩
  · intro obs sid y m hm
    rw [winterOnly]
    exact valuesFor_filter obs _ sid y m fun o ho => by
      rw [ho]
      exact decide_eq_true hm
  · intro store disp m p hm
    rw [winterOnly]
    exact periodValues_filter store _ disp m p fun o ho => by
      rw [ho]
      exact decide_eq_true hm
  · intro tmin tmax sid r hr
    rcases hey : earliestYear tmin tmax sid with _ | ey
    · rw [monthlyRows, hey] at hr
      exact absurd hr (by simp)
    · have h2 := (monthlyRows_mem hey hr).2.1
      refine ⟨h2, ?_⟩
      rw [INCLUDED_MONTHS] at h2
      rw [WINTER_MONTHS]
      simp only [List.mem_cons, List.not_mem_nil, or_false] at h2
      rcases h2 with h | h | h | h <;> simp [h]

/-- Witness for C4 at a concrete input: January is a winter month, and the
January 2016 monthly group of station S is unchanged by removing the
non-winter observations (here, the July 2015 record). -/
theorem C4_witness :
    valuesFor (winterOnly [oJul, oJan]) "S" 2016 1 =
      valuesFor [oJul, oJan] "S" 2016 1 :=
  C4_winter_value_independence.1 [oJul, oJan] "S" 2016 1 (by decide)

lemma mem_ymKeys {tmin tmax : List Obs} {sid : String} {y : Int} {m : Nat} :
    (y, m) ∈ ymKeys tmin tmax sid ↔
      ∃ o ∈ tmin ++ tmax, o.sid = sid ∧ o.date.y = y ∧ o.date.m = m := by
  rw [ymKeys, mem_uniqueKeys]
  simp only [List.mem_map, List.mem_filter]
  constructor
  · rintro ⟨o, ⟨ho, hsid⟩, heq⟩
    rw [Prod.mk.injEq] at heq
    exact ⟨o, ho, by simpa using hsid, heq.1, heq.2⟩
  · rintro ⟨o, ho, h1, h2, h3⟩
    exact ⟨o, ⟨ho, by simpa using h1⟩, by rw [Prod.mk.injEq]; exact ⟨h2, h3⟩⟩

lemma ymKeys_filter (tmin tmax : List Obs) (w : Obs → Bool) (sid : String)
    (y : Int) (m : Nat) (h : ∀ o : Obs, o.date.m = m → w o = true) :
    ((y, m) ∈ ymKeys (tmin.filter w) (tmax.filter w) sid ↔
      (y, m) ∈ ymKeys tmin tmax sid) := by
  rw [mem_ymKeys, mem_ymKeys]
  constructor
  · rintro ⟨o, ho, h1, h2, h3⟩
    rw [List.mem_append, List.mem_filter, List.mem_filter] at ho
    refine ⟨o, List.mem_append.mpr ?_, h1, h2, h3⟩
    rcases ho with ho | ho
    · exact Or.inl ho.1
    · exact Or.inr ho.1
  · rintro ⟨o, ho, h1, h2, h3⟩
    rw [List.mem_append] at ho
    refine ⟨o, List.mem_append.mpr ?_, h1, h2, h3⟩
    have hw : w o = true := h o h3
    rcases ho with ho | ho
    · exact Or.inl (List.mem_filter.mpr ⟨ho, hw⟩)
    · exact Or.inr (List.mem_filter.mpr ⟨ho, hw⟩)

lemma ymPair_filter (tmin tmax : List Obs) (w : Obs → Bool) (sid : String)
    (y : Int) (m : Nat) (h : ∀ o : Obs, o.date.m = m → w o = true) :
    ymPair (tmin.filter w) (tmax.filter w) sid y m =
      ymPair tmin tmax sid y m := by
  have hmin : monthlyMeanInt (tmin.filter w) sid y m =
      monthlyMeanInt tmin sid y m := by
    rw [monthlyMeanInt, monthlyMeanInt, valuesFor_filter tmin w sid y m h]
  have hmax : monthlyMeanInt (tmax.filter w) sid y m =
      monthlyMeanInt tmax sid y m := by
    rw [monthlyMeanInt, monthlyMeanInt, valuesFor_filter tmax w sid y m h]
  rw [ymPair, ymPair]
  by_cases hk : (y, m) ∈ ymKeys tmin tmax sid
  · rw [if_pos ((ymKeys_filter tmin tmax w sid y m h).mpr hk), if_pos hk,
      hmin, hmax]
  · rw [if_neg fun hc => hk ((ymKeys_filter tmin tmax w sid y m h).mp hc),
      if_neg hk]

/-- The predicate keeping every observation whose month is not February. -/
def notFeb (o : Obs) : Bool := !(o.date.m == 2)

/-- Removal of all February observations from a stream. -/
def dropFeb (obs : List Obs) : List Obs := obs.filter notFeb

lemma notFeb_of_month {m : Nat} (hm : m ≠ 2) :
    ∀ o : Obs, o.date.m = m → notFeb o = true := by
  intro o ho
  rw [notFeb, ho]
  simp [hm]

/-- C10.  February observations get season year = calendar year − 1 (the
same rule as January): every February monthly-report row has season year one
less than its calendar year, and (by the first-season rule, which applies to
all rows) a season year at least the station's earliest observed year; and
February data never contributes to any Nov–Jan seasonal value — the seasonal
parts of every season year are unchanged when all February observations are
removed. -/
theorem C10_february_handling :
    (∀ y : Int, seasonYearOf y 2 = y - 1 ∧ seasonYearOf y 1 = y - 1)
    ∧ (∀ (tmin tmax : List Obs) (sid : String)
        (r : Int × Int × Nat × Option ℤ × Option ℤ),
        r ∈ monthlyRows tmin tmax sid → r.2.2.1 = 2 → r.1 = r.2.1 - 1)
    ∧ (∀ (tmin tmax : List Obs) (sid : String) (ey : Int),
        earliestYear tmin tmax sid = some ey →
        ∀ r ∈ monthlyRows tmin tmax sid, ey ≤ r.1)
    ∧ (∀ (tmin tmax : List Obs) (sid : String) (sy : Int),
        yearlyParts (dropFeb tmin) (dropFeb tmax) sid sy =
          yearlyParts tmin tmax sid sy) := by
  refine ⟨fun y => ⟨by simp [seasonYearOf], by simp [seasonYearOf]⟩,
    ?_, ?_, ?_⟩
  · intro tmin tmax sid r hr hm
    rcases hey : earliestYear tmin tmax sid with _ | ey
    · rw [monthlyRows, hey] at hr
      exact absurd hr (by simp)
    · have h3 := (monthlyRows_mem hey hr).2.2
      rw [hm] at h3
      rw [h3]
      simp [seasonYearOf]
  · exact fun tmin tmax sid ey hey r hr => (monthlyRows_mem hey hr).1
  · intro tmin tmax sid sy
    rw [dropFeb, dropFeb, yearlyParts, yearlyParts]
    simp only [List.filterMap_cons, List.filterMap_nil]
    rw [ymPair_filter tmin tmax notFeb sid sy 11 (notFeb_of_month (by decide)),
      ymPair_filter tmin tmax notFeb sid sy 12 (notFeb_of_month (by decide)),
      ymPair_filter tmin tmax notFeb sid (sy + 1) 1
        (notFeb_of_month (by decide))]

/-- Station S, Feb 3 2021, value 4 (TMIN stream). -/
def oFeb : Obs := ⟨"S", "S", ⟨2021, 2, 3⟩, 4⟩

/-- The February monthly-report row of station S with observations Nov 2020
and Feb 2021: season year 2020 for calendar year 2021. -/
def rFeb : Int × Int × Nat × Option ℤ × Option ℤ := (2020, 2021, 2, none, some 4)

/-- Witness for C10 at a concrete input: the February 2021 row of the
two-record station has season year = calendar year − 1, and every row of
that station's monthly report carries a season year at least 2020. -/
theorem C10_witness :
    rFeb.1 = rFeb.2.1 - 1
    ∧ (∀ r ∈ monthlyRows [oNov, oFeb] [] "S", (2020 : ℤ) ≤ r.1) := by
  have hv5 : valuesFor [oNov, oFeb] "S" 2020 11 = [5] := by decide
  have hv4 : valuesFor [oNov, oFeb] "S" 2021 2 = [4] := by decide
  have h1 : monthlyMeanInt [oNov, oFeb] "S" 2020 11 = some 5 :=
    monthlyMeanInt_eq_intCast hv5 (by norm_num)
  have h2 : monthlyMeanInt [oNov, oFeb] "S" 2021 2 = some 4 :=
    monthlyMeanInt_eq_intCast hv4 (by norm_num)
  have hmem : rFeb ∈ monthlyRows [oNov, oFeb] [] "S" := by
    rw [monthlyRows, show earliestYear [oNov, oFeb] [] "S" = some 2020
      from by decide]
    dsimp only
    rw [show ((ymKeys [oNov, oFeb] [] "S").filter fun p =>
        decide (p.2 ∈ INCLUDED_MONTHS) &&
          decide ((2020 : ℤ) ≤ seasonYearOf p.1 p.2)) = [(2020, 11), (2021, 2)]
      from by decide]
    simp only [List.filterMap_cons, List.filterMap_nil]
    rw [show monthlyMeanInt [] "S" 2020 11 = none from rfl,
      show monthlyMeanInt [] "S" 2021 2 = none from rfl, h1, h2]
    norm_num [seasonYearOf, rFeb]
    simp
  exact ⟨C10_february_handling.2.1 [oNov, oFeb] [] "S" rFeb hmem rfl,
    C10_february_handling.2.2.1 [oNov, oFeb] [] "S" 2020 (by decide)⟩

lemma findRank_eq_none {items : List (Int × ℚ)} {ty : Int}
    (h : ∀ it ∈ items, it.1 ≠ ty) : ∀ k, findRank items ty k = none := by
  induction items with
  | nil => intro k; rfl
  | cons it rest ih =>
    intro k
    rw [findRank, if_neg (h it (List.mem_cons_self it rest))]
    exact ih (fun x hx => h x (List.mem_cons_of_mem it hx)) (k + 1)

lemma findRank_spec (items : List (Int × ℚ)) (ty : Int) :
    ∀ (i k : Nat) (v : Int × ℚ), items.get? i = some v → v.1 = ty →
    (∀ j, j < i → ∀ w, items.get? j = some w → w.1 ≠ ty) →
    findRank items ty k = some (k + i, v.2) := by
  induction items with
  | nil =>
    intro i k v hv
    rw [List.get?_nil] at hv
    exact absurd hv (by simp)
  | cons it rest ih =>
    intro i k v hv hty hmin
    cases i with
    | zero =>
      rw [List.get?_cons_zero] at hv
      cases hv
      rw [findRank, if_pos hty]
      norm_num
    | succ i =>
      have h0 : it.1 ≠ ty :=
        hmin 0 (Nat.succ_pos i) it (by rw [List.get?_cons_zero])
      rw [findRank, if_neg h0]
      have hrec := ih i (k + 1) v (by rwa [List.get?_cons_succ] at hv) hty
        (fun j hj w hw =>
          hmin (j + 1) (Nat.succ_lt_succ hj) w
            (by rwa [List.get?_cons_succ]))
      rw [hrec]
      have harith : k + 1 + i = k + (i + 1) := by omega
      rw [harith]

lemma year_tier_row_head (avgs : List ((Int × Nat) × ℚ)) (m : Nat) :
    (year_tier_row avgs m).1 = target_year_for_month m
    ∧ (year_tier_row avgs m).2.1 = m := by
  rw [year_tier_row]
  rcases sortDesc (monthItems avgs m) with _ | ⟨top, rest⟩
  · exact ⟨rfl, rfl⟩
  · dsimp only
    rcases findRank (top :: rest) (target_year_for_month m) 1 with _ | ⟨idx, avg⟩
    · exact ⟨rfl, rfl⟩
    · exact ⟨rfl, rfl⟩

/-- C8.  In the year-tier report, whenever the target year of a check month
has no entry among that month's items the emitted row carries blank rank and
blank degrees (modelled as `none`, not an error and not zero); and the report
is total: it always consists of exactly the four target rows
Oct/Nov/Dec to 2025 and Jan to 2026, whatever the input map. -/
theorem C8_missing_target_year_blank :
    (∀ (avgs : List ((Int × Nat) × ℚ)) (m : Nat),
      (∀ it ∈ monthItems avgs m, it.1 ≠ target_year_for_month m) →
      (year_tier_row avgs m).2.2.1 = none
      ∧ (year_tier_row avgs m).2.2.2 = none)
    ∧ (∀ avgs : List ((Int × Nat) × ℚ),
      (year_tier_rows avgs).map (fun r => (r.1, r.2.1)) =
        [(2025, 10), (2025, 11), (2025, 12), (2026, 1)]) := by
  constructor
  · intro avgs m h
    rw [year_tier_row]
    rcases hs : sortDesc (monthItems avgs m) with _ | ⟨top, rest⟩
    · exact ⟨rfl, rfl⟩
    · have hmem : ∀ it ∈ top :: rest, it.1 ≠ target_year_for_month m := by
        intro it hit
        refine h it ?_
        have : it ∈ sortDesc (monthItems avgs m) := hs ▸ hit
        rw [sortDesc] at this
        exact (List.perm_insertionSort descByMean _).subset this
      dsimp only
      rw [findRank_eq_none hmem 1]
      exact ⟨rfl, rfl⟩
  · intro avgs
    simp only [year_tier_rows, CHECK_MONTHS, List.map_cons, List.map_nil]
    rw [(year_tier_row_head avgs 10).1, (year_tier_row_head avgs 10).2,
      (year_tier_row_head avgs 11).1, (year_tier_row_head avgs 11).2,
      (year_tier_row_head avgs 12).1, (year_tier_row_head avgs 12).2,
      (year_tier_row_head avgs 1).1, (year_tier_row_head avgs 1).2]
    norm_num [target_year_for_month]

/-- A station map with October 2020 data only: the October target year 2025
has no entry. -/
def exC8 : List ((Int × Nat) × ℚ) := [((2020, 10), 50)]

/-- Witness for C8 at a concrete input: with only October 2020 data, the
October year-tier row has blank rank and blank degrees. -/
theorem C8_witness :
    (year_tier_row exC8 10).2.2.1 = none
    ∧ (year_tier_row exC8 10).2.2.2 = none :=
  C8_missing_target_year_blank.1 exC8 10 (by decide)

/-- A station map with October means 50 (2020), 45 (2021), 48 (2025): the
ranking example of the specification. -/
def exC7 : List ((Int × Nat) × ℚ) :=
  [((2020, 10), 50), ((2021, 10), 45), ((2025, 10), 48)]

lemma sortDesc_exC7 :
    sortDesc (monthItems exC7 10) = [(2020, 50), (2025, 48), (2021, 45)] := by
  rw [show monthItems exC7 10 = [(2020, 50), (2021, 45), (2025, 48)]
    from by decide]
  norm_num [sortDesc, List.insertionSort, List.orderedInsert, descByMean]

/-- C7.  The per-month ranking: the emitted top slice is sorted descending
by mean, holds at most 20 pairs, and draws only from that month's items;
findRank assigns rank i + 1 to the item at 0-based sorted position i whose
year is the target (ranks are the 1-based positions in the sorted order);
and on the specification's example — October means 50 (2020), 45 (2021),
48 (2025) — the year-tier row ranks 2025 second with degreesBelowTop 2. -/
theorem C7_ranking :
    (∀ (avgs : List ((Int × Nat) × ℚ)) (month : Nat),
      List.Pairwise descByMean (rankedTop avgs month)
      ∧ (rankedTop avgs month).length ≤ 20
      ∧ ∀ x ∈ rankedTop avgs month, x ∈ monthItems avgs month)
    ∧ (∀ (items : List (Int × ℚ)) (ty : Int) (i : Nat) (v : Int × ℚ),
        items.get? i = some v → v.1 = ty →
        (∀ j, j < i → ∀ w, items.get? j = some w → w.1 ≠ ty) →
        findRank items ty 1 = some (i + 1, v.2))
    ∧ year_tier_row exC7 10 = (2025, 10, some 2, some 2) := by
  refine ⟨?_, ?_, ?_⟩
  · intro avgs month
    have hsorted := List.sorted_insertionSort descByMean (monthItems avgs month)
    refine ⟨?_, ?_, ?_⟩
    · rw [rankedTop]
      exact List.Pairwise.sublist (List.take_sublist 20 _) hsorted
    · rw [rankedTop, List.length_take]
      exact min_le_left _ _
    · intro x hx
      rw [rankedTop] at hx
      have hx2 := List.mem_of_mem_take hx
      rw [sortDesc] at hx2
      exact (List.perm_insertionSort descByMean _).subset hx2
  · intro items ty i v h1 h2 h3
    have := findRank_spec items ty i 1 v h1 h2 h3
    rwa [Nat.add_comm] at this
  · have hfr : findRank [(2020, (50 : ℚ)), (2025, 48), (2021, 45)] 2025 1 =
        some (2, 48) := by
      rw [findRank, if_neg (by decide), findRank, if_pos rfl]
    have hrt : roundTo2 ((50 : ℚ) - 48) = 2 := by
      rw [roundTo2, show ((50 : ℚ) - 48) * 100 = ((200 : ℤ) : ℚ) from
        by norm_num, roundHalfEven_intCast]
      norm_num
    rw [year_tier_row, sortDesc_exC7]
    dsimp only
    rw [show target_year_for_month 10 = 2025 from rfl, hfr]
    dsimp only
    rw [hrt]

/-- Witness for C7 at concrete inputs: the pair (2020, 50) taken into the
October top slice of the example map indeed comes from the October items,
and findRank locates the target year 2025 at sorted position 1 with rank 2. -/
theorem C7_witness :
    ((2020, (50 : ℚ)) ∈ monthItems exC7 10)
    ∧ findRank [(2020, (50 : ℚ)), (2025, 48), (2021, 45)] 2025 1 =
        some (1 + 1, 48) := by
  constructor
  · refine (C7_ranking.1 exC7 10).2.2 (2020, 50) ?_
    rw [rankedTop, sortDesc_exC7]
    decide
  · refine C7_ranking.2.1 [(2020, (50 : ℚ)), (2025, 48), (2021, 45)] 2025 1
      (2025, 48) (by rw [List.get?_cons_succ, List.get?_cons_zero]) rfl ?_
    intro j hj w hw
    have hj0 : j = 0 := Nat.lt_one_iff.mp hj
    subst hj0
    rw [List.get?_cons_zero] at hw
    cases hw
    decide

end NWS
